import Mathlib

/-!
Verification of the stringer-tab derivation and aggregation engine
(`callbacks.py`) against its natural-language specification.

The embedding is shallow: pandas DataFrames become lists of association-list
rows plus an explicit column list, Python dicts become association lists, and
Python float arithmetic is idealised as exact arithmetic.  Every number the
program manipulates is either a rational or a rational combination `a + b*π`
(the only irrational constant in the source is `math.pi`, entering through the
duck-feet curve-area term), so numbers are represented exactly by a pair of
rationals `PiQ`, keeping every definition computable and every concrete
evaluation decidable.
-/

namespace Fubu

/-- An exact real number of the form `a + b * π`.  All numeric values produced
by the program live in this set: inputs are rationals (`b = 0`), and the only
π-valued quantities are the duck-feet curve-area constant `(4 - π) * 200` and
the duck-feet masses and their sums derived from it. -/
structure PiQ where
  a : ℚ
  b : ℚ
deriving DecidableEq, Repr

def PiQ.add (x y : PiQ) : PiQ := ⟨x.a + y.a, x.b + y.b⟩

/-- Multiplication by a rational scalar (every multiplication in the source has
a plain rational on at least one side). -/
def PiQ.qmul (x : PiQ) (q : ℚ) : PiQ := ⟨x.a * q, x.b * q⟩

/-- Division by a rational scalar. -/
def PiQ.qdiv (x : PiQ) (q : ℚ) : PiQ := ⟨x.a / q, x.b / q⟩

/-- The real number denoted by a `PiQ`. -/
noncomputable def PiQ.toReal (x : PiQ) : ℝ := (x.a : ℝ) + (x.b : ℝ) * Real.pi

/-- Sum of a list of `PiQ` values (models pandas column sums). -/
def sumPiQ (l : List PiQ) : PiQ := l.foldr PiQ.add ⟨0, 0⟩

/-- A Python scalar value as it occurs in table cells, dict values and UI
inputs: `None`, a number, or a string. -/
inductive PyVal where
  | null : PyVal
  | num : PiQ → PyVal
  | str : String → PyVal
deriving DecidableEq, Repr

/-- A plain rational cell value. -/
def pvQ (q : ℚ) : PyVal := .num ⟨q, 0⟩

/-- A row of a DataFrame (and likewise a Python dict such as the properties
mapping or a panel record): an association list from keys to values.  pandas
columns are unique, so rows carry each key at most once. -/
abbrev Row := List (String × PyVal)

def Row.find (r : Row) (k : String) : Option PyVal := List.lookup k r

/-- `r[k] = v` on a dict / row: overwrite an existing binding in place, else
append a new one at the end (Python dicts preserve insertion order). -/
def Row.set (r : Row) (k : String) (v : PyVal) : Row :=
  if r.any (fun kv => kv.1 = k) then
    r.map (fun kv => if kv.1 = k then (k, v) else kv)
  else r ++ [(k, v)]

/-- `row.get(k, default)` — the cell when present, else the default. -/
def Row.getD (r : Row) (k : String) (d : PyVal) : PyVal := (r.find k).getD d

/-- A pandas DataFrame: its column list and its rows. -/
structure DataFrame where
  cols : List String
  rows : List Row
deriving DecidableEq, Repr

/-- `df[c] = ...` with a per-row value: registers the column and writes the
cell of every row. -/
def DataFrame.setCol (df : DataFrame) (c : String) (f : Row → PyVal) : DataFrame :=
  { cols := if c ∈ df.cols then df.cols else df.cols ++ [c],
    rows := df.rows.map (fun r => r.set c (f r)) }

/-- `df.empty`. -/
def DataFrame.empty (df : DataFrame) : Bool := df.rows.isEmpty

/- ### Python numeric parsing (`float(...)` / `pd.to_numeric(..., "coerce")`)

Modelled for decimal literals with optional sign and fraction part, which is
the shape every input in the specification and claims takes; exponent and
infinity forms of Python's grammar are not exercised by any claim. -/

/-- Value of a list of decimal digits (digits are guaranteed by the caller). -/
def digitsVal (l : List Char) : ℕ :=
  l.foldl (fun acc c => 10 * acc + (c.toNat - '0'.toNat)) 0

/-- Parse an unsigned decimal literal `digits [. digits]`, `digits.`, or
`.digits`; fails on anything else, including the empty string. -/
def parseUnsigned (l : List Char) : Option ℚ :=
  let intPart := l.takeWhile Char.isDigit
  let rest := l.dropWhile Char.isDigit
  match rest with
  | [] =>
      if intPart.isEmpty then Option.none else some (digitsVal intPart : ℚ)
  | '.' :: frac =>
      if frac.all Char.isDigit ∧ ¬(intPart.isEmpty ∧ frac.isEmpty) then
        some ((digitsVal intPart : ℚ) + (digitsVal frac : ℚ) / (10 ^ frac.length))
      else Option.none
  | _ => Option.none

/-- Trim leading and trailing whitespace from a character list (Python
`str.strip()` with no argument). -/
def trimChars (l : List Char) : List Char :=
  ((l.dropWhile Char.isWhitespace).reverse.dropWhile Char.isWhitespace).reverse

/-- Trim a string (`.strip()`). -/
def trimStr (s : String) : String := ⟨trimChars s.data⟩

/-- Parse a string as a number the way `float(...)` and
`pd.to_numeric(..., errors="coerce")` do: surrounding whitespace ignored,
optional sign, decimal literal. -/
def parseFloat (s : String) : Option ℚ :=
  match trimChars s.data with
  | '+' :: r => parseUnsigned r
  | '-' :: r => (parseUnsigned r).map Neg.neg
  | r => parseUnsigned r

/-- `pd.to_numeric(cell, "coerce").fillna(0)` on one cell: a number passes
through, a parsable string becomes its value, anything else becomes 0.
A numeric cell read by `to_numeric` in the program is always a plain rational
(the only π-valued column, `Duck Feet`, is never re-read numerically), so the
rational part is taken. -/
def toNumFill0 : PyVal → ℚ
  | .num p => p.a
  | .str s => (parseFloat s).getD 0
  | .null => 0

/-- The numeric content of a cell for pandas column sums (`.sum()` after a
groupby): numbers count, missing values count as 0.  String cells would make
pandas concatenate instead; no summed column holds strings in any state the
claims concern. -/
def cellNum : PyVal → PiQ
  | .num p => p
  | _ => ⟨0, 0⟩

/-- `str(v)` for the values that occur as `Frame ID` cells.  Python renders a
number by its decimal representation (e.g. `50.0`); the rendering of
non-integer rationals is abstracted by `toString` since no claim involves a
numeric frame id. -/
def pyStr : PyVal → String
  | .str s => s
  | .null => "None"
  | .num p => if p.b = 0 then toString p.a else toString p.a ++ "+pi*" ++ toString p.b

/- ### The cross-section lookup and the key extraction -/

/-- The two-level cross-section lookup `type -> frame id -> area (mm²)`. -/
abbrev CsLookup := List (String × List (String × ℚ))

/-- `cs_lookup.get(t, {}).get(f, 0.0)`. -/
def csLookupGet (l : CsLookup) (t f : String) : ℚ :=
  (((List.lookup t l).getD []).lookup f).getD 0

/-- Python `s.split("_")` for character lists: always non-empty, with the
separator occurrences removed.  `"" -> [""]`, `"a_b" -> ["a","b"]`,
`"_" -> ["",""]`. -/
def splitUnderscore : List Char → List (List Char)
  | [] => [[]]
  | c :: cs =>
      if c = '_' then [] :: splitUnderscore cs
      else
        match splitUnderscore cs with
        | [] => [[c]]
        | h :: t => (c :: h) :: t

/-- The `stringer name` cell as a string: absent key means `""` (the `get`
default).  A non-string cell would make Python's `.split` raise; no claim
exercises that shape. -/
def nameCellStr (r : Row) : String :=
  match r.find "stringer name" with
  | some (.str s) => s
  | some _ => ""
  | Option.none => ""

/-- `r.get("stringer name", "").split("_")[-1].strip()` — the cross-section
type key of a row. -/
def typeKey (r : Row) : String :=
  ⟨trimChars (((splitUnderscore (nameCellStr r).data).getLast?).getD [])⟩

/-- `str(r.get("Frame ID", "")).strip()` — the frame key of a row. -/
def frameKey (r : Row) : String :=
  trimStr (pyStr (r.getD "Frame ID" (.str "")))

/- ### Global properties -/

/-- The global-properties mapping, a JSON-like dict. -/
abbrev Props := Row

/-- `props.get(k, d)`. -/
def propsGet (p : Props) (k : String) (d : PyVal) : PyVal := Row.getD p k d

/-- A numeric property value: the stored number, defaulting to 0.  A stored
string would make the Python arithmetic raise; the merge operation only ever
stores floats, so that case does not arise. -/
def propNum (p : Props) (k : String) : ℚ :=
  match propsGet p k (pvQ 0) with
  | .num q => q.a
  | _ => 0

def gThick (p : Props) : ℚ := propNum p "global_stringer_thickness"
def gDens (p : Props) : ℚ := propNum p "global_stringer_density"
def gStrW (p : Props) : ℚ := propNum p "global_stringer_width"
def gStripW (p : Props) : ℚ := propNum p "global_strip_width"

/-- `props.get("global_duck_feet_selection", "No") == "Yes"`. -/
def duckYes (p : Props) : Bool :=
  propsGet p "global_duck_feet_selection" (.str "No") = PyVal.str "Yes"

/- ### Column names used by the source -/

def colThick : String := "Stringer Thickness (mm)"
def colDens : String := "Stringer Density (g/cm³)"
def colDuckApplied : String := "Duck Feet Applied"
def colCs : String := "Stringer Cross Section (mm²)"
def colPitch : String := "Stringer Pitch (mm)"
def colDuckFeet : String := "Duck Feet"
def colFrameLen : String := "Frame Length (Pitch) (mm)"
def colWeight : String := "Weight (g)"
def colZone : String := "Zone Name"

/- ### `_calculate_stringer_weights` -/

/-- The duck-feet curve-area constant `(4 - pi) * (20**2 / 2)` of the source,
as the exact number `800 - 200·π`. -/
def curveArea : PiQ := PiQ.qmul ⟨4, -1⟩ (20 ^ 2 / 2)

/-- The strip area of one row:
`(pd.to_numeric(df["Stringer Pitch (mm)"], "coerce").fillna(0) - g_str_w).clip(lower=0) * g_strip_w`. -/
def stripArea (p : Props) (r : Row) : ℚ :=
  max (toNumFill0 (r.getD colPitch .null) - gStrW p) 0 * gStripW p

/-- The duck-feet cell of one row when the selection is "Yes":
`((strip_area + curve_area) * g_thick * g_dens) / 1000000.0`. -/
def duckFeetCell (p : Props) (r : Row) : PiQ :=
  (((PiQ.add ⟨stripArea p r, 0⟩ curveArea).qmul (gThick p)).qmul (gDens p)).qdiv 1000000

/-- The weight cell of one row:
`(to_numeric(cs)/100.0) * (to_numeric(frame_length)/10.0) * g_dens`. -/
def weightCell (p : Props) (r : Row) : ℚ :=
  toNumFill0 (r.getD colCs .null) / 100 * (toNumFill0 (r.getD colFrameLen .null) / 10) * gDens p

/-- Lines 27–35 of `_calculate_stringer_weights`: assign the thickness,
density, duck-feet-applied and cross-section columns. -/
def deriveStage1 (df : DataFrame) (p : Props) (l : CsLookup) : DataFrame :=
  ((((df.setCol colThick (fun _ => pvQ (gThick p))).setCol
      colDens (fun _ => pvQ (gDens p))).setCol
      colDuckApplied (fun _ => .str (if duckYes p then "Yes" else "No"))).setCol
      colCs (fun r => pvQ (csLookupGet l (typeKey r) (frameKey r))))

/-- Lines 37–43: the duck-feet column.  When the selection is "Yes" the pitch
column is read, raising `KeyError` if it is absent. -/
def deriveStage2 (df : DataFrame) (p : Props) : Except String DataFrame :=
  if duckYes p then
    if colPitch ∈ df.cols then
      .ok (df.setCol colDuckFeet (fun r => .num (duckFeetCell p r)))
    else .error "KeyError: Stringer Pitch (mm)"
  else .ok (df.setCol colDuckFeet (fun _ => pvQ 0))

/-- Lines 45–49: the weight column.  The frame-length column is read
unconditionally, raising `KeyError` if it is absent. -/
def deriveStage3 (df : DataFrame) (p : Props) : Except String DataFrame :=
  if colFrameLen ∈ df.cols then
    .ok (df.setCol colWeight (fun r => pvQ (weightCell p r)))
  else .error "KeyError: Frame Length (Pitch) (mm)"

/-- `_calculate_stringer_weights(df, props, cs_lookup)`: the returned value, or
the uncaught exception. -/
def calcStringerWeights (df : DataFrame) (p : Props) (l : CsLookup) :
    Except String DataFrame :=
  match deriveStage2 (deriveStage1 df p l) p with
  | .error e => .error e
  | .ok d2 => deriveStage3 d2 p

/-- The value held by the DataFrame *object* after the call, whether or not an
exception was raised: the column assignments before the raise point have
already mutated it. -/
def calcMutatedValue (df : DataFrame) (p : Props) (l : CsLookup) : DataFrame :=
  match deriveStage2 (deriveStage1 df p l) p with
  | .error _ => deriveStage1 df p l
  | .ok d2 =>
      match deriveStage3 d2 p with
      | .error _ => d2
      | .ok d3 => d3

/-- The rows produced by a successful call to `_calculate_stringer_weights`
(empty when the call raises — used to quantify over success outputs). -/
def deriveRows (df : DataFrame) (p : Props) (l : CsLookup) : List Row :=
  match calcStringerWeights df p l with
  | .ok d => d.rows
  | .error _ => []

/-- Python calls `_calculate_stringer_weights` on a DataFrame object living in
a heap; the call rebinds nothing, it mutates the object at the argument's
address and returns that same address. -/
def calcCallHeap (h : ℕ → DataFrame) (addr : ℕ) (p : Props) (l : CsLookup) :
    (ℕ → DataFrame) × ℕ :=
  (fun x => if x = addr then calcMutatedValue (h addr) p l else h x, addr)

/- ### `_update_panels_with_stringer_weights` -/

/-- A panel record: a dict owned by another subsystem, carrying at least a
`name` entry. -/
abbrev Panel := Row

/-- The distinct group keys of `df.groupby("Zone Name")`: the distinct
Zone Name cells, with missing values dropped (pandas excludes NaN keys),
in first-occurrence order. -/
def zoneKeys (df : DataFrame) : List PyVal :=
  ((df.rows.map (fun r => r.getD colZone .null)).filter (fun v => v ≠ .null)).dedup

/-- The grouped sum of column `c` over the rows whose Zone Name cell is `z`. -/
def zoneColSum (df : DataFrame) (c : String) (z : PyVal) : PiQ :=
  sumPiQ (((df.rows.filter (fun r => r.getD colZone .null = z)).map
    (fun r => cellNum (r.getD c .null))))

/-- The body of the per-panel loop: set the aggregate fields when the panel's
`name` matches a zone group, and set `stringer_density` unconditionally. -/
def annotatePanel (df : DataFrame) (p : Props) (panel : Panel) : Panel :=
  let name := panel.getD "name" .null
  let p1 :=
    if name ∈ zoneKeys df then
      (panel.set "total_stringer_weight" (.num (zoneColSum df colWeight name))).set
        "total_duck_feet" (.num (zoneColSum df colDuckFeet name))
    else panel
  p1.set "stringer_density" (propsGet p "global_stringer_density" (pvQ 0))

/-- `_update_panels_with_stringer_weights(panels, df, props)`: when the frame
has a Zone Name column and rows, group and annotate (the groupby raises
`KeyError` if the summed columns are absent); otherwise return the panel list
unchanged. -/
def updatePanelsWithStringerWeights (panels : List Panel) (df : DataFrame)
    (p : Props) : Except String (List Panel) :=
  if colZone ∈ df.cols ∧ ¬df.rows.isEmpty then
    if colDuckFeet ∈ df.cols ∧ colWeight ∈ df.cols then
      .ok (panels.map (annotatePanel df p))
    else .error "KeyError: Duck Feet / Weight (g)"
  else .ok panels

/- ### Dash callback outputs -/

/-- A value placed in a Dash callback's output tuple.  `tup` is a Python tuple
appearing as a single value (as the error return of
`save_global_stringer_properties` produces). -/
inductive DashVal where
  | noUpdate : DashVal
  | html : String → String → DashVal
  | json : DataFrame → DashVal
  | panels : List Panel → DashVal
  | propsJson : Props → DashVal
  | records : List Row → DashVal
  | colDefs : List String → DashVal
  | tup : List DashVal → DashVal

/- ### `update_stringer_tab_table` -/

/-- `df.rename(columns={"Duck Feet": "Duck Feet (kg)"})`. -/
def renameCol (df : DataFrame) (old new : String) : DataFrame :=
  { cols := df.cols.map (fun c => if c = old then new else c),
    rows := df.rows.map (fun r =>
      r.map (fun kv => if kv.1 = old then (new, kv.2) else kv)) }

/-- `df[[c for c in stringer_columns if c in df.columns]].to_dict("records")`:
the rows projected onto the display columns, in display order. -/
def projectRecords (df : DataFrame) (sel : List String) : List Row :=
  df.rows.map (fun r => sel.map (fun c => (c, r.getD c .null)))

/-- `update_stringer_tab_table(panels, stringer_json, cs_lookup, props)`.  The
stores are modelled post-load: `stringerData` is the loaded frame when the
stringer JSON is truthy, `csLookup` is empty exactly when the lookup store is
falsy, and `stringer_columns` (an external display-order constant) is a
parameter.  The whole body sits in a `try`/`except` returning the empty-table
outputs, so the operation never lets an exception escape: its boundary result
is always `ok`. -/
def updateStringerTabTable (stringerColumns : List String)
    (panels : Option (List Panel)) (stringerData : Option DataFrame)
    (csLookup : CsLookup) (props : Props) : Except String (List DashVal) :=
  let fallback : List DashVal :=
    [.records [], .colDefs [], .noUpdate, .panels (panels.getD [])]
  match stringerData, csLookup with
  | Option.none, _ => .ok fallback
  | _, [] => .ok fallback
  | some df, _ =>
      if df.empty then .ok fallback
      else
        match calcStringerWeights df props csLookup with
        | .error _ => .ok fallback
        | .ok d =>
            let disp := renameCol d colDuckFeet "Duck Feet (kg)"
            let sel := stringerColumns.filter (fun c => c ∈ disp.cols)
            .ok [.records (projectRecords disp sel), .colDefs sel, .json d,
              .panels (panels.getD [])]

/- ### `save_global_stringer_properties` -/

/-- Python truthiness of an input value: `None`, `0` and `""` are falsy. -/
def pyTruthy : PyVal → Bool
  | .null => false
  | .num p => ¬(p = ⟨0, 0⟩)
  | .str s => ¬(s = "")

/-- `x or 0`. -/
def pyOr0 (v : PyVal) : PyVal := if pyTruthy v then v else pvQ 0

/-- `float(v)`: a number passes through, a string is parsed (raising
`ValueError` when unparsable), `None` raises `TypeError`. -/
def pyFloat : PyVal → Except String ℚ
  | .num p => .ok p.a
  | .str s =>
      match parseFloat s with
      | some q => .ok q
      | Option.none => .error ("could not convert string to float: '" ++ s ++ "'")
  | .null => .error "float() argument must be a string or a real number, not 'NoneType'"

/-- The five-field update of lines 141–149 applied to the loaded properties
dict. -/
def mergedProps (props : Props) (t d : ℚ) (duck : PyVal) (w sw : ℚ) : Props :=
  ((((props.set "global_stringer_thickness" (pvQ t)).set
      "global_stringer_density" (pvQ d)).set
      "global_duck_feet_selection" duck).set
      "global_stringer_width" (pvQ w)).set
      "global_strip_width" (pvQ sw)

/-- Lines 151–157: when the table is non-empty, re-derive it with the merged
properties and an empty cross-section lookup, then store the row count and, if
the pitch column exists, the pitch sum.  When the pitch column is absent,
`df.get` yields the scalar default `0`, `to_numeric` leaves it a scalar, and
`.fillna` on it raises `AttributeError`. -/
def mergeRecompute (df : DataFrame) (props1 : Props) :
    Except String (DataFrame × Props) :=
  if ¬df.empty then
    match calcStringerWeights df props1 [] with
    | .error e => .error e
    | .ok df1 =>
        if colPitch ∈ df1.cols then
          .ok (df1, (props1.set "total_stringers" (pvQ df1.rows.length)).set
            "total_stringer_pitch"
            (pvQ ((df1.rows.map (fun r => toNumFill0 (r.getD colPitch .null))).sum)))
        else .error "AttributeError: 'int' object has no attribute 'fillna'"
  else .ok (df, props1)

/-- The `try` body of `save_global_stringer_properties`: parse the five edited
fields (each through `float(x or 0)`, in source order), merge them, re-derive
the table when non-empty, and re-annotate copies of the panels. -/
def saveGlobalBody (thick dens duck strW stripW : PyVal) (df : DataFrame)
    (panels : List Panel) (props : Props) :
    Except String (DataFrame × List Panel × Props) :=
  match pyFloat (pyOr0 thick) with
  | .error e => .error e
  | .ok t =>
      match pyFloat (pyOr0 dens) with
      | .error e => .error e
      | .ok d =>
          match pyFloat (pyOr0 strW) with
          | .error e => .error e
          | .ok w =>
              match pyFloat (pyOr0 stripW) with
              | .error e => .error e
              | .ok sw =>
                  match mergeRecompute df (mergedProps props t d duck w sw) with
                  | .error e => .error e
                  | .ok (df1, props2) =>
                      match updatePanelsWithStringerWeights (panels.map id)
                          df1 props2 with
                      | .error e => .error e
                      | .ok panels1 => .ok (df1, panels1, props2)

/-- `save_global_stringer_properties(n_clicks, ..., stringer_json, panels,
props_json)`: the full callback return value.  On the success path the four
outputs are returned flat; on the except path the source returns the pair
`(html.P(f"Error: {e}"), (dash.no_update,) * 3)` — a two-element tuple whose
second element is itself a tuple. -/
def saveGlobalStringerProperties (nClicks : ℕ)
    (thick dens duck strW stripW : PyVal) (df : DataFrame)
    (panels : List Panel) (props : Props) : Except String (List DashVal) :=
  if nClicks = 0 then .ok [.noUpdate, .noUpdate, .noUpdate, .noUpdate]
  else
    match saveGlobalBody thick dens duck strW stripW df panels props with
    | .ok (df1, panels1, props1) =>
        .ok [.html "Global properties saved!" "green", .json df1,
          .panels panels1, .propsJson props1]
    | .error e =>
        .ok [.html ("Error: " ++ e) "red", .tup [.noUpdate, .noUpdate, .noUpdate]]

/- ### `update_zone_stringer_summary` -/

def colTotW : String := "Total Stringer Weight (kg)"
def colTotD : String := "Total Duck Feet (kg)"

/-- The sort key pandas uses for the groupby's ascending key order.  Zone names
are strings in every state the claims concern; a non-string key sorts through
an empty-string projection (mixed-type keys would make pandas raise). -/
def zoneSortKey : PyVal → String
  | .str s => s
  | _ => ""

/-- The groupby's distinct keys in ascending order. -/
def sortedZoneKeys (df : DataFrame) : List PyVal :=
  List.insertionSort (fun x y => zoneSortKey x ≤ zoneSortKey y) (zoneKeys df)

/-- One summary record for zone `z`: Zone Name, total weight in kg
(`Weight (g)` sum divided by 1000) and total duck feet, both passed through
the display formatter. -/
def summaryRecord (fmt : PiQ → PyVal) (df : DataFrame) (z : PyVal) : Row :=
  [(colZone, z),
   (colTotW, fmt ((zoneColSum df colWeight z).qdiv 1000)),
   (colTotD, fmt (zoneColSum df colDuckFeet z))]

/-- `update_zone_stringer_summary(stringer_json)`.  `fmt` is the external
`format_value_for_csv` display formatter, modelled from the spec:
a numeric-formatting rule applied uniformly to both summary columns (its
definition is not part of this repository's sources).  The function has no
`try`/`except`: when the frame is non-empty and carries the two summed columns
but no `Zone Name` column, the groupby raises `KeyError` uncaught. -/
def updateZoneStringerSummary (fmt : PiQ → PyVal) (df : DataFrame) :
    Except String (List Row × List String) :=
  if df.empty ∨ ¬(colWeight ∈ df.cols ∧ colDuckFeet ∈ df.cols) then
    .ok ([], [])
  else if colZone ∈ df.cols then
    .ok ((sortedZoneKeys df).map (summaryRecord fmt df), [colZone, colTotW, colTotD])
  else .error "KeyError: Zone Name"

/- ### Helpers shared by statements and witnesses -/

/-- Whether a boundary call returned (rather than raising). -/
def exceptIsOk {ε α : Type} : Except ε α → Bool
  | .ok _ => true
  | .error _ => false

/-- The identity display formatter, used to instantiate the external
`format_value_for_csv` parameter in concrete evaluations. -/
def fmtId : PiQ → PyVal := .num

/-- The number of values a callback handed back to Dash. -/
def okLength {ε : Type} : Except ε (List DashVal) → Option ℕ
  | .ok l => some l.length
  | .error _ => Option.none

/-- The merged frame a successful `save_global_stringer_properties` call wrote
to the stringer-data store. -/
def mergedFrame : Except String (List DashVal) → Option DataFrame
  | .ok [_, .json d, _, _] => some d
  | _ => Option.none

/- ### Row / lookup lemmas -/

theorem lookup_map_subst {k : String} {r : Row} (v : PyVal) :
    List.lookup k (r.map (fun kv => if kv.1 = k then (k, v) else kv))
      = (List.lookup k r).map (fun _ => v) := by
  induction r with
  | nil => rfl
  | cons hd tl ih =>
      obtain ⟨a, b⟩ := hd
      by_cases hk : a = k
      · subst hk
        simp [List.lookup_cons]
      · have hne : (k == a) = false :=
          beq_eq_false_iff_ne.mpr (fun hh => hk hh.symm)
        simp only [List.map_cons, if_neg hk, List.lookup_cons, hne, ih]

theorem lookup_append_single_self {k : String} {r : Row} (v : PyVal)
    (h : List.lookup k r = Option.none) :
    List.lookup k (r ++ [(k, v)]) = some v := by
  induction r with
  | nil => simp
  | cons hd tl ih =>
      obtain ⟨a, b⟩ := hd
      rw [List.lookup_cons] at h
      cases hkk : (k == a) with
      | true => simp [hkk] at h
      | false =>
          rw [hkk] at h
          simp only [List.cons_append, List.lookup_cons, hkk]
          exact ih h

theorem lookup_append_single_ne {k k2 : String} {r : Row} (v : PyVal) (h : k2 ≠ k) :
    List.lookup k2 (r ++ [(k, v)]) = List.lookup k2 r := by
  induction r with
  | nil =>
      have hne : (k2 == k) = false := beq_eq_false_iff_ne.mpr h
      simp [List.lookup_cons, hne]
  | cons hd tl ih =>
      obtain ⟨a, b⟩ := hd
      simp only [List.cons_append, List.lookup_cons, ih]

theorem lookup_map_subst_ne {k k2 : String} {r : Row} (v : PyVal) (h : k2 ≠ k) :
    List.lookup k2 (r.map (fun kv => if kv.1 = k then (k, v) else kv))
      = List.lookup k2 r := by
  induction r with
  | nil => rfl
  | cons hd tl ih =>
      obtain ⟨a, b⟩ := hd
      by_cases hk : a = k
      · subst hk
        have hne : (k2 == a) = false := beq_eq_false_iff_ne.mpr h
        simp only [List.map_cons, eq_self_iff_true, if_true, List.lookup_cons, hne, ih]
      · simp only [List.map_cons, if_neg hk, List.lookup_cons, ih]

theorem lookup_eq_none_of_any_false {k : String} {r : Row}
    (h : r.any (fun kv => kv.1 = k) = false) : List.lookup k r = Option.none := by
  induction r with
  | nil => rfl
  | cons hd tl ih =>
      obtain ⟨a, b⟩ := hd
      simp only [List.any_cons, Bool.or_eq_false_iff, decide_eq_false_iff_not] at h
      have hne : (k == a) = false :=
        beq_eq_false_iff_ne.mpr (fun hh => h.1 hh.symm)
      rw [List.lookup_cons, hne, ih h.2]

theorem lookup_isSome_of_any_true {k : String} {r : Row}
    (h : r.any (fun kv => kv.1 = k) = true) : (List.lookup k r).isSome = true := by
  induction r with
  | nil => simp at h
  | cons hd tl ih =>
      obtain ⟨a, b⟩ := hd
      by_cases hk : a = k
      · subst hk
        simp [List.lookup_cons]
      · have hne : (k == a) = false :=
          beq_eq_false_iff_ne.mpr (fun hh => hk hh.symm)
        rw [List.lookup_cons, hne]
        apply ih
        simp only [List.any_cons, Bool.or_eq_true_iff, decide_eq_true_eq] at h
        rcases h with h | h
        · exact absurd h hk
        · exact h

theorem Row.find_set_self (r : Row) (k : String) (v : PyVal) :
    (r.set k v).find k = some v := by
  unfold Row.set Row.find
  by_cases h : r.any (fun kv => kv.1 = k) = true
  · rw [if_pos h, lookup_map_subst]
    rcases Option.isSome_iff_exists.mp (lookup_isSome_of_any_true h) with ⟨w, hw⟩
    rw [hw]
    rfl
  · rw [if_neg h]
    exact lookup_append_single_self v
      (lookup_eq_none_of_any_false (Bool.not_eq_true _ ▸ eq_false_of_ne_true h))

theorem Row.find_set_ne (r : Row) (k k2 : String) (v : PyVal) (h : k2 ≠ k) :
    (r.set k v).find k2 = r.find k2 := by
  unfold Row.set Row.find
  by_cases hb : r.any (fun kv => kv.1 = k) = true
  · rw [if_pos hb]
    exact lookup_map_subst_ne v h
  · rw [if_neg hb]
    exact lookup_append_single_ne v h

theorem Row.getD_set_self (r : Row) (k : String) (v d : PyVal) :
    (r.set k v).getD k d = v := by
  unfold Row.getD
  rw [Row.find_set_self]
  rfl

theorem Row.getD_set_ne (r : Row) (k k2 : String) (v d : PyVal) (h : k2 ≠ k) :
    (r.set k v).getD k2 d = r.getD k2 d := by
  unfold Row.getD
  rw [Row.find_set_ne r k k2 v h]

/- ### Per-row view of `_calculate_stringer_weights` -/

/-- The effect of lines 27–29 on one row. -/
def rowStageA (p : Props) (r : Row) : Row :=
  ((r.set colThick (pvQ (gThick p))).set colDens (pvQ (gDens p))).set colDuckApplied
    (.str (if duckYes p then "Yes" else "No"))

/-- The effect of lines 30–35 on one row (applied after stage A, as the list
comprehension iterates the already-updated frame). -/
def rowStageB (l : CsLookup) (r : Row) : Row :=
  r.set colCs (pvQ (csLookupGet l (typeKey r) (frameKey r)))

/-- The effect of lines 37–43 on one row. -/
def rowStageC (p : Props) (r : Row) : Row :=
  if duckYes p then r.set colDuckFeet (.num (duckFeetCell p r))
  else r.set colDuckFeet (pvQ 0)

/-- The effect of lines 45–49 on one row. -/
def rowStageD (p : Props) (r : Row) : Row := r.set colWeight (pvQ (weightCell p r))

/-- The whole per-row effect of a successful `_calculate_stringer_weights`. -/
def rowDeriveFun (p : Props) (l : CsLookup) (r : Row) : Row :=
  rowStageD p (rowStageC p (rowStageB l (rowStageA p r)))

theorem mem_setCol_cols {x c : String} (df : DataFrame) (f : Row → PyVal)
    (h : x ∈ df.cols) : x ∈ (df.setCol c f).cols := by
  unfold DataFrame.setCol
  by_cases hc : c ∈ df.cols <;> simp [hc, h]

theorem deriveStage1_rows (df : DataFrame) (p : Props) (l : CsLookup) :
    (deriveStage1 df p l).rows = df.rows.map (fun r => rowStageB l (rowStageA p r)) := by
  simp [deriveStage1, DataFrame.setCol, List.map_map, rowStageA, rowStageB,
    Function.comp]

theorem deriveStage1_cols {x : String} (df : DataFrame) (p : Props) (l : CsLookup)
    (h : x ∈ df.cols) : x ∈ (deriveStage1 df p l).cols := by
  unfold deriveStage1
  exact mem_setCol_cols _ _ (mem_setCol_cols _ _ (mem_setCol_cols _ _
    (mem_setCol_cols _ _ h)))

theorem deriveStage2_ok {df : DataFrame} {p : Props} {d : DataFrame}
    (h : deriveStage2 df p = .ok d) :
    d.rows = df.rows.map (rowStageC p) ∧ ∀ x ∈ df.cols, x ∈ d.cols := by
  unfold deriveStage2 at h
  cases hy : duckYes p with
  | true =>
      rw [hy] at h
      simp only [if_true] at h
      by_cases hp : colPitch ∈ df.cols
      · rw [if_pos hp] at h
        cases h
        refine ⟨?_, fun x hx => mem_setCol_cols _ _ hx⟩
        simp [DataFrame.setCol, rowStageC, hy]
      · rw [if_neg hp] at h
        cases h
  | false =>
      rw [hy] at h
      simp only [Bool.false_eq_true, if_false] at h
      cases h
      refine ⟨?_, fun x hx => mem_setCol_cols _ _ hx⟩
      simp [DataFrame.setCol, rowStageC, hy]

theorem deriveStage3_ok {df : DataFrame} {p : Props} {d : DataFrame}
    (h : deriveStage3 df p = .ok d) :
    d.rows = df.rows.map (rowStageD p) ∧ ∀ x ∈ df.cols, x ∈ d.cols := by
  unfold deriveStage3 at h
  by_cases hl : colFrameLen ∈ df.cols
  · rw [if_pos hl] at h
    cases h
    refine ⟨?_, fun x hx => mem_setCol_cols _ _ hx⟩
    simp [DataFrame.setCol, rowStageD]
  · rw [if_neg hl] at h
    cases h

theorem calcStringerWeights_ok_elim {df : DataFrame} {p : Props} {l : CsLookup}
    {d : DataFrame} (h : calcStringerWeights df p l = .ok d) :
    d.rows = df.rows.map (rowDeriveFun p l) ∧ ∀ x ∈ df.cols, x ∈ d.cols := by
  unfold calcStringerWeights at h
  cases h2 : deriveStage2 (deriveStage1 df p l) p with
  | error e =>
      rw [h2] at h
      exact absurd h (by simp)
  | ok d2 =>
      rw [h2] at h
      obtain ⟨hr2, hc2⟩ := deriveStage2_ok h2
      obtain ⟨hr3, hc3⟩ := deriveStage3_ok h
      constructor
      · rw [hr3, hr2, deriveStage1_rows, List.map_map, List.map_map]
        rfl
      · intro x hx
        exact hc3 _ (hc2 _ (deriveStage1_cols _ _ _ hx))

theorem calcStringerWeights_isOk {df : DataFrame} {p : Props} {l : CsLookup}
    (hlen : colFrameLen ∈ df.cols)
    (hpitch : duckYes p = true → colPitch ∈ df.cols) :
    ∃ d, calcStringerWeights df p l = .ok d := by
  have h2 : ∃ d2, deriveStage2 (deriveStage1 df p l) p = .ok d2 := by
    unfold deriveStage2
    by_cases hy : duckYes p = true
    · rw [if_pos hy, if_pos (deriveStage1_cols df p l (hpitch hy))]
      exact ⟨_, rfl⟩
    · rw [if_neg hy]
      exact ⟨_, rfl⟩
  obtain ⟨d2, h2⟩ := h2
  have h3 : ∃ d3, deriveStage3 d2 p = .ok d3 := by
    unfold deriveStage3
    rw [if_pos ((deriveStage2_ok h2).2 _ (deriveStage1_cols df p l hlen))]
    exact ⟨_, rfl⟩
  obtain ⟨d3, h3⟩ := h3
  refine ⟨d3, ?_⟩
  unfold calcStringerWeights
  rw [h2]
  exact h3

theorem deriveRows_eq {df : DataFrame} {p : Props} {l : CsLookup} {d : DataFrame}
    (hc : calcStringerWeights df p l = .ok d) : deriveRows df p l = d.rows := by
  unfold deriveRows
  rw [hc]

theorem mem_deriveRows {df : DataFrame} {p : Props} {l : CsLookup} {r' : Row}
    (h : r' ∈ deriveRows df p l) : ∃ r ∈ df.rows, r' = rowDeriveFun p l r := by
  cases hc : calcStringerWeights df p l with
  | error e =>
      unfold deriveRows at h
      rw [hc] at h
      exact absurd h (by simp)
  | ok d =>
      rw [deriveRows_eq hc, (calcStringerWeights_ok_elim hc).1] at h
      rcases List.mem_map.mp h with ⟨r, hr, hEq⟩
      exact ⟨r, hr, hEq.symm⟩

theorem stageA_find_other (p : Props) (r : Row) (k : String)
    (h1 : k ≠ colThick) (h2 : k ≠ colDens) (h3 : k ≠ colDuckApplied) :
    (rowStageA p r).find k = r.find k := by
  unfold rowStageA
  rw [Row.find_set_ne _ _ _ _ h3, Row.find_set_ne _ _ _ _ h2,
    Row.find_set_ne _ _ _ _ h1]

theorem stageA_typeKey (p : Props) (r : Row) :
    typeKey (rowStageA p r) = typeKey r := by
  unfold typeKey nameCellStr
  rw [stageA_find_other p r "stringer name" (by decide) (by decide) (by decide)]

theorem stageA_frameKey (p : Props) (r : Row) :
    frameKey (rowStageA p r) = frameKey r := by
  unfold frameKey Row.getD
  rw [stageA_find_other p r "Frame ID" (by decide) (by decide) (by decide)]

theorem rowDerive_find_other (p : Props) (l : CsLookup) (r : Row) (k : String)
    (h1 : k ≠ colThick) (h2 : k ≠ colDens) (h3 : k ≠ colDuckApplied)
    (h4 : k ≠ colCs) (h5 : k ≠ colDuckFeet) (h6 : k ≠ colWeight) :
    (rowDeriveFun p l r).find k = r.find k := by
  unfold rowDeriveFun rowStageD rowStageC rowStageB
  by_cases hy : duckYes p = true
  · rw [if_pos hy, Row.find_set_ne _ _ _ _ h6, Row.find_set_ne _ _ _ _ h5,
      Row.find_set_ne _ _ _ _ h4, stageA_find_other p r k h1 h2 h3]
  · rw [if_neg hy, Row.find_set_ne _ _ _ _ h6, Row.find_set_ne _ _ _ _ h5,
      Row.find_set_ne _ _ _ _ h4, stageA_find_other p r k h1 h2 h3]

theorem rowDerive_typeKey (p : Props) (l : CsLookup) (r : Row) :
    typeKey (rowDeriveFun p l r) = typeKey r := by
  unfold typeKey nameCellStr
  rw [rowDerive_find_other p l r "stringer name" (by decide) (by decide) (by decide)
    (by decide) (by decide) (by decide)]

theorem rowDerive_frameKey (p : Props) (l : CsLookup) (r : Row) :
    frameKey (rowDeriveFun p l r) = frameKey r := by
  unfold frameKey Row.getD
  rw [rowDerive_find_other p l r "Frame ID" (by decide) (by decide) (by decide)
    (by decide) (by decide) (by decide)]

theorem rowDerive_getD_other (p : Props) (l : CsLookup) (r : Row) (k : String)
    (d : PyVal) (h1 : k ≠ colThick) (h2 : k ≠ colDens) (h3 : k ≠ colDuckApplied)
    (h4 : k ≠ colCs) (h5 : k ≠ colDuckFeet) (h6 : k ≠ colWeight) :
    (rowDeriveFun p l r).getD k d = r.getD k d := by
  unfold Row.getD
  rw [rowDerive_find_other p l r k h1 h2 h3 h4 h5 h6]

theorem stageCB_getD_cs (p : Props) (l : CsLookup) (r : Row) :
    (rowStageC p (rowStageB l (rowStageA p r))).getD colCs .null
      = pvQ (csLookupGet l (typeKey r) (frameKey r)) := by
  unfold rowStageC
  by_cases hy : duckYes p = true
  · rw [if_pos hy, Row.getD_set_ne _ _ _ _ _ (by decide : colCs ≠ colDuckFeet)]
    unfold rowStageB
    rw [Row.getD_set_self, stageA_typeKey, stageA_frameKey]
  · rw [if_neg hy, Row.getD_set_ne _ _ _ _ _ (by decide : colCs ≠ colDuckFeet)]
    unfold rowStageB
    rw [Row.getD_set_self, stageA_typeKey, stageA_frameKey]

theorem stageCB_getD_frameLen (p : Props) (l : CsLookup) (r : Row) :
    (rowStageC p (rowStageB l (rowStageA p r))).getD colFrameLen .null
      = r.getD colFrameLen .null := by
  unfold rowStageC
  by_cases hy : duckYes p = true
  · rw [if_pos hy, Row.getD_set_ne _ _ _ _ _ (by decide : colFrameLen ≠ colDuckFeet)]
    unfold rowStageB
    rw [Row.getD_set_ne _ _ _ _ _ (by decide : colFrameLen ≠ colCs)]
    unfold Row.getD
    rw [stageA_find_other p r colFrameLen (by decide) (by decide) (by decide)]
  · rw [if_neg hy, Row.getD_set_ne _ _ _ _ _ (by decide : colFrameLen ≠ colDuckFeet)]
    unfold rowStageB
    rw [Row.getD_set_ne _ _ _ _ _ (by decide : colFrameLen ≠ colCs)]
    unfold Row.getD
    rw [stageA_find_other p r colFrameLen (by decide) (by decide) (by decide)]

theorem toNumFill0_pvQ (q : ℚ) : toNumFill0 (pvQ q) = q := rfl

theorem rowDerive_find_cs (p : Props) (l : CsLookup) (r : Row) :
    (rowDeriveFun p l r).find colCs
      = some (pvQ (csLookupGet l (typeKey r) (frameKey r))) := by
  unfold rowDeriveFun rowStageD
  rw [Row.find_set_ne _ _ _ _ (by decide : colCs ≠ colWeight)]
  have h := stageCB_getD_cs p l r
  unfold rowStageC at h ⊢
  by_cases hy : duckYes p = true
  · rw [if_pos hy, Row.find_set_ne _ _ _ _ (by decide : colCs ≠ colDuckFeet)]
    unfold rowStageB
    rw [Row.find_set_self, stageA_typeKey, stageA_frameKey]
  · rw [if_neg hy, Row.find_set_ne _ _ _ _ (by decide : colCs ≠ colDuckFeet)]
    unfold rowStageB
    rw [Row.find_set_self, stageA_typeKey, stageA_frameKey]

theorem rowDerive_find_weight (p : Props) (l : CsLookup) (r : Row) :
    (rowDeriveFun p l r).find colWeight
      = some (pvQ (csLookupGet l (typeKey r) (frameKey r) / 100
          * (toNumFill0 (r.getD colFrameLen .null) / 10) * gDens p)) := by
  unfold rowDeriveFun rowStageD
  rw [Row.find_set_self]
  unfold weightCell
  rw [stageCB_getD_cs, stageCB_getD_frameLen, toNumFill0_pvQ]

theorem duckFeetCell_congr (p : Props) {r r2 : Row}
    (h : r.getD colPitch .null = r2.getD colPitch .null) :
    duckFeetCell p r = duckFeetCell p r2 := by
  unfold duckFeetCell stripArea
  rw [h]

theorem stageB_getD_pitch (p : Props) (l : CsLookup) (r : Row) :
    (rowStageB l (rowStageA p r)).getD colPitch .null = r.getD colPitch .null := by
  unfold rowStageB
  rw [Row.getD_set_ne _ _ _ _ _ (by decide : colPitch ≠ colCs)]
  unfold Row.getD
  rw [stageA_find_other p r colPitch (by decide) (by decide) (by decide)]

theorem rowDerive_find_duck_yes (p : Props) (l : CsLookup) (r : Row)
    (hy : duckYes p = true) :
    (rowDeriveFun p l r).find colDuckFeet = some (.num (duckFeetCell p r)) := by
  unfold rowDeriveFun rowStageD rowStageC
  rw [Row.find_set_ne _ _ _ _ (by decide : colDuckFeet ≠ colWeight), if_pos hy,
    Row.find_set_self, duckFeetCell_congr p (stageB_getD_pitch p l r)]

theorem rowDerive_find_duck_no (p : Props) (l : CsLookup) (r : Row)
    (hy : ¬duckYes p = true) :
    (rowDeriveFun p l r).find colDuckFeet = some (pvQ 0) := by
  unfold rowDeriveFun rowStageD rowStageC
  rw [Row.find_set_ne _ _ _ _ (by decide : colDuckFeet ≠ colWeight), if_neg hy,
    Row.find_set_self]

/- ### Concrete inputs used by witnesses (Scenarios A and B of the spec) -/

def rowInA : Row :=
  [("stringer name", .str "ABC_TYPE1"), ("Frame ID", .str "F1"),
   (colFrameLen, pvQ 1000)]

def dfScenA : DataFrame :=
  { cols := ["stringer name", "Frame ID", colFrameLen], rows := [rowInA] }

def propsScenA : Props := [("global_stringer_density", pvQ (27 / 10))]

def lkScenA : CsLookup := [("TYPE1", [("F1", 50)])]

def rowInB : Row := [(colPitch, pvQ 100), (colFrameLen, pvQ 0)]

def dfScenB : DataFrame :=
  { cols := [colPitch, colFrameLen], rows := [rowInB] }

def propsScenB : Props :=
  [("global_stringer_thickness", pvQ 2), ("global_stringer_density", pvQ (27 / 10)),
   ("global_duck_feet_selection", .str "Yes"), ("global_stringer_width", pvQ 40),
   ("global_strip_width", pvQ 10)]

/- ### Claim theorems -/

/-- C9: for every row, derive sets
`weight_g = (cross_section_mm2 / 100) * (frame_length_pitch_mm / 10) * density`,
with missing/non-numeric length treated as 0, where the cross-section cell is
the lookup value for the row's type and frame keys; a zero cross-section
yields `weight_g = 0`. -/
theorem C9_weight_formula :
    (∀ (df : DataFrame) (p : Props) (l : CsLookup) (r' : Row),
        r' ∈ deriveRows df p l →
          r'.find colCs = some (pvQ (csLookupGet l (typeKey r') (frameKey r')))
          ∧ r'.find colWeight = some (pvQ (csLookupGet l (typeKey r') (frameKey r') / 100
              * (toNumFill0 (r'.getD colFrameLen .null) / 10) * gDens p))
          ∧ (csLookupGet l (typeKey r') (frameKey r') = 0 →
              r'.find colWeight = some (pvQ 0)))
      ∧ toNumFill0 .null = 0
      ∧ (∀ s, parseFloat s = Option.none → toNumFill0 (.str s) = 0) := by
  refine ⟨?_, rfl, ?_⟩
  · intro df p l r' hmem
    rcases mem_deriveRows hmem with ⟨r, _, hEq⟩
    subst hEq
    rw [rowDerive_typeKey, rowDerive_frameKey,
      rowDerive_getD_other p l r colFrameLen .null (by decide) (by decide)
        (by decide) (by decide) (by decide) (by decide)]
    refine ⟨rowDerive_find_cs p l r, rowDerive_find_weight p l r, ?_⟩
    intro h0
    have hz : csLookupGet l (typeKey r) (frameKey r) / 100
        * (toNumFill0 (r.getD colFrameLen .null) / 10) * gDens p = 0 := by
      rw [h0]
      ring
    rw [rowDerive_find_weight p l r, hz]
  · intro s h
    simp [toNumFill0, h]

/-- Witness for C9 at Scenario A: the derived row has cross-section 50.0 and
weight 135.0, and satisfies the weight formula. -/
theorem C9_weight_formula_witness :
    rowDeriveFun propsScenA lkScenA rowInA ∈ deriveRows dfScenA propsScenA lkScenA
      ∧ (rowDeriveFun propsScenA lkScenA rowInA).find colCs = some (pvQ 50)
      ∧ (rowDeriveFun propsScenA lkScenA rowInA).find colWeight = some (pvQ 135)
      ∧ (rowDeriveFun propsScenA lkScenA rowInA).find colWeight
          = some (pvQ (csLookupGet lkScenA
              (typeKey (rowDeriveFun propsScenA lkScenA rowInA))
              (frameKey (rowDeriveFun propsScenA lkScenA rowInA)) / 100
              * (toNumFill0 ((rowDeriveFun propsScenA lkScenA rowInA).getD
                  colFrameLen .null) / 10) * gDens propsScenA)) := by
  obtain ⟨d, hd⟩ : ∃ d, calcStringerWeights dfScenA propsScenA lkScenA = .ok d :=
    calcStringerWeights_isOk (by decide) (fun hy => absurd hy (by decide))
  have hm : rowDeriveFun propsScenA lkScenA rowInA
      ∈ deriveRows dfScenA propsScenA lkScenA := by
    rw [deriveRows_eq hd, (calcStringerWeights_ok_elim hd).1]
    exact List.mem_map_of_mem _ (List.mem_singleton.mpr rfl)
  have htk : typeKey rowInA = "TYPE1" := by decide
  have hfk : frameKey rowInA = "F1" := by decide
  refine ⟨hm, ?_, ?_, (C9_weight_formula.1 dfScenA propsScenA lkScenA _ hm).2.1⟩
  · rw [rowDerive_find_cs, htk, hfk]
    simp [csLookupGet, lkScenA, List.lookup]
  · rw [rowDerive_find_weight, htk, hfk]
    simp only [csLookupGet, lkScenA, gDens, propNum, propsGet, Row.getD, Row.find,
      rowInA, toNumFill0, pvQ, colFrameLen, List.lookup, String.reduceBEq,
      String.reduceEq, Option.getD_some, Option.getD_none, Option.some.injEq,
      PyVal.num.injEq, PiQ.mk.injEq]
    norm_num

/-- C7: for every row, when the duck-feet selection is "Yes", derive sets
`duck_feet_kg = (max(pitch - stringer_width, 0) * strip_width
+ (4 - π) * (20² / 2)) * thickness * density / 1e6` with missing/non-numeric
pitch treated as 0, and sets `duck_feet_kg = 0` otherwise. -/
theorem C7_duck_feet_formula :
    (∀ (df : DataFrame) (p : Props) (l : CsLookup) (r' : Row),
        propsGet p "global_duck_feet_selection" (.str "No") = .str "Yes" →
        r' ∈ deriveRows df p l →
          ∃ duck : PiQ, r'.find colDuckFeet = some (.num duck)
            ∧ duck.toReal
              = (max ((toNumFill0 (r'.getD colPitch .null) : ℝ) - (gStrW p : ℝ)) 0
                    * (gStripW p : ℝ)
                  + (4 - Real.pi) * (20 ^ 2 / 2)) * (gThick p : ℝ) * (gDens p : ℝ)
                  / 1000000)
      ∧ (∀ (df : DataFrame) (p : Props) (l : CsLookup) (r' : Row),
          propsGet p "global_duck_feet_selection" (.str "No") ≠ .str "Yes" →
          r' ∈ deriveRows df p l → r'.find colDuckFeet = some (pvQ 0))
      ∧ toNumFill0 .null = 0
      ∧ (∀ s, parseFloat s = Option.none → toNumFill0 (.str s) = 0) := by
  refine ⟨?_, ?_, rfl, ?_⟩
  · intro df p l r' hsel hmem
    have hy : duckYes p = true := by
      unfold duckYes
      exact decide_eq_true hsel
    rcases mem_deriveRows hmem with ⟨r, _, hEq⟩
    subst hEq
    rw [rowDerive_getD_other p l r colPitch .null (by decide) (by decide)
      (by decide) (by decide) (by decide) (by decide)]
    refine ⟨duckFeetCell p r, rowDerive_find_duck_yes p l r hy, ?_⟩
    unfold duckFeetCell stripArea curveArea PiQ.add PiQ.qmul PiQ.qdiv PiQ.toReal
    push_cast [Rat.cast_max]
    ring
  · intro df p l r' hsel hmem
    have hy : ¬duckYes p = true := by
      unfold duckYes
      simpa using hsel
    rcases mem_deriveRows hmem with ⟨r, _, hEq⟩
    subst hEq
    exact rowDerive_find_duck_no p l r hy
  · intro s h
    simp [toNumFill0, h]

/-- Witness for C7 at Scenario B (pitch 100, width 40, strip width 10,
thickness 2, density 2.7, selection "Yes"): the derived duck-feet cell is the
exact number `0.00756 - 0.00108·π ≈ 0.004167` and satisfies the formula. -/
theorem C7_duck_feet_formula_witness :
    propsGet propsScenB "global_duck_feet_selection" (.str "No") = .str "Yes"
      ∧ rowDeriveFun propsScenB [] rowInB ∈ deriveRows dfScenB propsScenB []
      ∧ (rowDeriveFun propsScenB [] rowInB).find colDuckFeet
          = some (.num ⟨189 / 25000, -27 / 25000⟩)
      ∧ (∃ duck : PiQ,
          (rowDeriveFun propsScenB [] rowInB).find colDuckFeet = some (.num duck)
          ∧ duck.toReal
            = (max ((toNumFill0 ((rowDeriveFun propsScenB [] rowInB).getD
                    colPitch .null) : ℝ)
                  - (gStrW propsScenB : ℝ)) 0 * (gStripW propsScenB : ℝ)
                + (4 - Real.pi) * (20 ^ 2 / 2)) * (gThick propsScenB : ℝ)
                * (gDens propsScenB : ℝ) / 1000000) := by
  have hsel : propsGet propsScenB "global_duck_feet_selection" (.str "No")
      = .str "Yes" := by decide
  have hy : duckYes propsScenB = true := by decide
  obtain ⟨d, hd⟩ : ∃ d, calcStringerWeights dfScenB propsScenB [] = .ok d :=
    calcStringerWeights_isOk (by decide) (fun _ => by decide)
  have hm : rowDeriveFun propsScenB [] rowInB ∈ deriveRows dfScenB propsScenB [] := by
    rw [deriveRows_eq hd, (calcStringerWeights_ok_elim hd).1]
    exact List.mem_map_of_mem _ (List.mem_singleton.mpr rfl)
  refine ⟨hsel, hm, ?_, C7_duck_feet_formula.1 dfScenB propsScenB [] _ hsel hm⟩
  rw [rowDerive_find_duck_yes _ _ _ hy]
  simp only [duckFeetCell, stripArea, curveArea, PiQ.add, PiQ.qmul, PiQ.qdiv,
    toNumFill0, Row.getD, Row.find, rowInB, gStrW, gStripW, gThick, gDens,
    propNum, propsGet, List.lookup, colPitch, pvQ, propsScenB, String.reduceBEq,
    String.reduceEq, Option.getD_some, Option.getD_none, Option.some.injEq,
    PyVal.num.injEq, PiQ.mk.injEq]
  norm_num

/- ### C10: the cross-section type key -/

theorem splitUnderscore_no_sep (l : List Char) (h : ∀ c ∈ l, c ≠ '_') :
    splitUnderscore l = [l] := by
  induction l with
  | nil => rfl
  | cons c cs ih =>
      have hc : ¬c = '_' := h c (List.mem_cons_self c cs)
      have ihh : splitUnderscore cs = [cs] :=
        ih (fun x hx => h x (List.mem_cons_of_mem c hx))
      simp only [splitUnderscore, if_neg hc, ihh]

/-- C10 (amended): the lookup type key of a row whose `stringer name` contains
no underscore is the whole whitespace-trimmed name; a missing or empty name
gives the empty string as key; the looked-up cross-section is `0.0` exactly
when the type key or the frame key is absent from the lookup, or when the
stored value is itself `0.0`. -/
theorem C10_type_key_amended :
    (∀ (s : String) (r : Row), r.find "stringer name" = some (.str s) →
        (∀ c ∈ s.data, c ≠ '_') → typeKey r = trimStr s)
      ∧ (∀ r : Row, (r.find "stringer name" = Option.none
            ∨ r.find "stringer name" = some (.str "")) → typeKey r = "")
      ∧ (∀ (l : CsLookup) (t f : String), csLookupGet l t f = 0 ↔
          (List.lookup t l = Option.none
            ∨ ((List.lookup t l).getD []).lookup f = Option.none
            ∨ ((List.lookup t l).getD []).lookup f = some 0)) := by
  refine ⟨?_, ?_, ?_⟩
  · intro s r hfind hsep
    unfold typeKey nameCellStr
    rw [hfind]
    rw [splitUnderscore_no_sep s.data hsep]
    rfl
  · intro r h
    rcases h with h | h <;>
      · unfold typeKey nameCellStr
        rw [h]
        rfl
  · intro l t f
    unfold csLookupGet
    cases h1 : List.lookup t l with
    | none => simp
    | some inner =>
        cases h2 : List.lookup f inner with
        | none => simp [h2]
        | some q => simp [h2]

/-- Witness for the amended C10: a name without underscores keys by the whole
trimmed name, and a missing name keys by the empty string. -/
theorem C10_type_key_amended_witness :
    ((∀ c ∈ "ABC".data, c ≠ '_')
      ∧ typeKey [("stringer name", PyVal.str "ABC")] = trimStr "ABC")
    ∧ (Row.find ([] : Row) "stringer name" = Option.none ∧ typeKey ([] : Row) = "")
    ∧ (csLookupGet lkScenA "TYPE1" "F1" = 0 ↔
        (List.lookup "TYPE1" lkScenA = Option.none
          ∨ ((List.lookup "TYPE1" lkScenA).getD []).lookup "F1" = Option.none
          ∨ ((List.lookup "TYPE1" lkScenA).getD []).lookup "F1" = some 0)) :=
  ⟨⟨by decide, C10_type_key_amended.1 "ABC" _ (by decide) (by decide)⟩,
   ⟨rfl, C10_type_key_amended.2.1 [] (Or.inl rfl)⟩,
   C10_type_key_amended.2.2 lkScenA "TYPE1" "F1"⟩

def rowCx10 : Row := [("stringer name", .str "A"), ("Frame ID", .str "F")]

def lkCx10 : CsLookup := [("A", [("F", 0)])]

/-- Counterexample to C10 as stated: with a lookup that stores the value `0.0`
under present keys, the looked-up cross-section is `0.0` although neither the
type key nor the frame key is absent. -/
theorem C10_type_key_cx :
    csLookupGet lkCx10 (typeKey rowCx10) (frameKey rowCx10) = 0
      ∧ typeKey rowCx10 = "A"
      ∧ frameKey rowCx10 = "F"
      ∧ (List.lookup "A" lkCx10).isSome = true
      ∧ (((List.lookup "A" lkCx10).getD []).lookup "F").isSome = true := by
  refine ⟨?_, by decide, by decide, by decide, by decide⟩
  have h1 : typeKey rowCx10 = "A" := by decide
  have h2 : frameKey rowCx10 = "F" := by decide
  rw [h1, h2]
  simp [csLookupGet, lkCx10, List.lookup]

/- ### C2: panel annotation -/

def dfEmpty : DataFrame := { cols := [], rows := [] }

def panelsC2 : List Panel := [[("name", .str "A")], [("name", .str "X")]]

def dfC2 : DataFrame :=
  { cols := [colZone, colWeight, colDuckFeet],
    rows := [[(colZone, .str "A"), (colWeight, pvQ 50), (colDuckFeet, pvQ 2)]] }

def propsC2 : Props := [("global_stringer_density", pvQ 3)]

/-- C2 (amended): when the derived row set is non-empty and carries the
Zone Name (and summed) columns, `annotate_panels` sets `stringer_density` on
every returned panel — matched by a zone or not; when the row set is empty or
has no Zone Name column, the panel list is returned unchanged and no density
field is written. -/
theorem C2_annotate_density_amended :
    (∀ (panels : List Panel) (df : DataFrame) (p : Props),
        colZone ∈ df.cols → df.rows ≠ [] → colDuckFeet ∈ df.cols →
        colWeight ∈ df.cols →
        ∀ out, updatePanelsWithStringerWeights panels df p = .ok out →
          out.length = panels.length
          ∧ ∀ q ∈ out, q.find "stringer_density"
              = some (propsGet p "global_stringer_density" (pvQ 0)))
      ∧ (∀ (panels : List Panel) (df : DataFrame) (p : Props),
          ¬(colZone ∈ df.cols ∧ ¬df.rows.isEmpty) →
          updatePanelsWithStringerWeights panels df p = .ok panels) := by
  constructor
  · intro panels df p hz hne hd hw out hout
    unfold updatePanelsWithStringerWeights at hout
    rw [if_pos ⟨hz, by simpa using hne⟩, if_pos ⟨hd, hw⟩] at hout
    injection hout with hout
    subst hout
    refine ⟨List.length_map _ _, ?_⟩
    intro q hq
    rcases List.mem_map.mp hq with ⟨pan, _, hEq⟩
    subst hEq
    exact Row.find_set_self _ _ _
  · intro panels df p hcond
    unfold updatePanelsWithStringerWeights
    rw [if_neg hcond]

/-- Witness for the amended C2: with one matching and one unmatched panel both
get the density field; with the empty frame the panels come back unchanged. -/
theorem C2_annotate_density_amended_witness :
    (colZone ∈ dfC2.cols ∧ dfC2.rows ≠ [] ∧ colDuckFeet ∈ dfC2.cols
      ∧ colWeight ∈ dfC2.cols)
    ∧ ((panelsC2.map (annotatePanel dfC2 propsC2)).length = panelsC2.length
        ∧ ∀ q ∈ panelsC2.map (annotatePanel dfC2 propsC2),
            q.find "stringer_density"
              = some (propsGet propsC2 "global_stringer_density" (pvQ 0)))
    ∧ (¬(colZone ∈ dfEmpty.cols ∧ ¬dfEmpty.rows.isEmpty)
        ∧ updatePanelsWithStringerWeights panelsC2 dfEmpty propsC2
            = .ok panelsC2) :=
  ⟨⟨by decide, by decide, by decide, by decide⟩,
   C2_annotate_density_amended.1 panelsC2 dfC2 propsC2 (by decide) (by decide)
     (by decide) (by decide) _ rfl,
   ⟨by decide,
    C2_annotate_density_amended.2 panelsC2 dfEmpty propsC2 (by decide)⟩⟩

/-- Counterexample to C2 as stated: with an empty derived row set,
`annotate_panels` returns the panel unchanged and does not set the density
field on it, although the claim requires the density to be set on every panel
even in that case. -/
theorem C2_annotate_density_cx :
    updatePanelsWithStringerWeights [[("name", .str "P")]] dfEmpty
        [("global_stringer_density", pvQ 3)]
      = .ok [[("name", .str "P")]]
    ∧ Row.find [("name", PyVal.str "P")] "stringer_density" = Option.none :=
  ⟨rfl, rfl⟩

/- ### C4: in-place mutation by derive -/

theorem calcMutatedValue_eq_of_ok {df : DataFrame} {p : Props} {l : CsLookup}
    {d : DataFrame} (hok : calcStringerWeights df p l = .ok d) :
    calcMutatedValue df p l = d := by
  unfold calcStringerWeights at hok
  unfold calcMutatedValue
  cases h2 : deriveStage2 (deriveStage1 df p l) p with
  | error e =>
      rw [h2] at hok
      exact absurd hok (by simp)
  | ok d2 =>
      rw [h2] at hok
      have hok2 : deriveStage3 d2 p = Except.ok d := hok
      show (match deriveStage3 d2 p with
        | Except.error _ => d2
        | Except.ok d3 => d3) = d
      rw [hok2]

/-- C4 (amended): the Python call to derive returns the very DataFrame object
it was given, mutated in place: the returned reference is the argument's
address, the heap cell at that address now holds the mutated value, and on a
successful call that value is exactly the derived frame — so the caller's
original rows are not preserved. -/
theorem C4_derive_mutates_in_place :
    (∀ (h : ℕ → DataFrame) (a : ℕ) (p : Props) (l : CsLookup),
        (calcCallHeap h a p l).2 = a
        ∧ (calcCallHeap h a p l).1 a = calcMutatedValue (h a) p l)
      ∧ (∀ (h : ℕ → DataFrame) (a : ℕ) (p : Props) (l : CsLookup) (d : DataFrame),
          calcStringerWeights (h a) p l = .ok d →
            (calcCallHeap h a p l).1 a = d) := by
  constructor
  · intro h a p l
    exact ⟨rfl, by simp [calcCallHeap]⟩
  · intro h a p l d hok
    have h1 : (calcCallHeap h a p l).1 a = calcMutatedValue (h a) p l := by
      simp [calcCallHeap]
    rw [h1, calcMutatedValue_eq_of_ok hok]

def dfC4 : DataFrame := { cols := [colFrameLen], rows := [[(colFrameLen, pvQ 10)]] }

def heapC4 : ℕ → DataFrame := fun _ => dfC4

/-- Witness for the amended C4 at a concrete heap: derive succeeds and the
heap cell afterwards holds the derived frame. -/
theorem C4_derive_mutates_in_place_witness :
    (calcCallHeap heapC4 0 [] []).2 = 0
      ∧ ((∃ d, calcStringerWeights (heapC4 0) [] [] = .ok d
          ∧ (calcCallHeap heapC4 0 [] []).1 0 = d)) := by
  obtain ⟨d, hd⟩ : ∃ d, calcStringerWeights (heapC4 0) [] [] = .ok d :=
    calcStringerWeights_isOk (by decide) (fun hy => absurd hy (by decide))
  exact ⟨(C4_derive_mutates_in_place.1 heapC4 0 [] []).1,
    ⟨d, hd, C4_derive_mutates_in_place.2 heapC4 0 [] [] d hd⟩⟩

/-- Counterexample to C4 as stated: after the call the caller's DataFrame
object no longer holds its original value (it has gained the derived
columns), so derive does mutate the shared input. -/
theorem C4_derive_mutates_cx :
    ((calcCallHeap heapC4 0 [] []).1 0).cols ≠ (heapC4 0).cols := by
  intro hEq
  exact absurd hEq (by decide)

/- ### C5: operation boundaries and exceptions -/

/-- C5 (amended): the two callback boundaries (`update_stringer_tab_table` and
`save_global_stringer_properties`) never let an exception escape — every
return is a value, including on their internal error paths; and
`update_zone_stringer_summary` returns the empty result when the row set is
empty or the `Weight (g)`/`Duck Feet` columns are missing.  (When those
columns are present on a non-empty frame without `Zone Name`, the summary
raises — see the counterexample.) -/
theorem C5_boundaries_amended :
    (∀ (sc : List String) (panels : Option (List Panel)) (sd : Option DataFrame)
        (lk : CsLookup) (p : Props),
        exceptIsOk (updateStringerTabTable sc panels sd lk p) = true)
      ∧ (∀ (n : ℕ) (thick dens duck strW stripW : PyVal) (df : DataFrame)
          (panels : List Panel) (props : Props),
          exceptIsOk (saveGlobalStringerProperties n thick dens duck strW stripW
            df panels props) = true)
      ∧ (∀ (fmt : PiQ → PyVal) (df : DataFrame),
          df.empty = true ∨ ¬(colWeight ∈ df.cols ∧ colDuckFeet ∈ df.cols) →
          updateZoneStringerSummary fmt df = .ok ([], [])) := by
  refine ⟨?_, ?_, ?_⟩
  · intro sc panels sd lk p
    unfold updateStringerTabTable
    dsimp only
    split
    · rfl
    · rfl
    · split
      · rfl
      · split <;> rfl
  · intro n thick dens duck strW stripW df panels props
    unfold saveGlobalStringerProperties
    by_cases hn : n = 0
    · rw [if_pos hn]
      rfl
    · rw [if_neg hn]
      cases saveGlobalBody thick dens duck strW stripW df panels props <;> rfl
  · intro fmt df h
    unfold updateZoneStringerSummary
    rw [if_pos h]

/-- Witness for the amended C5 at concrete inputs: both boundaries return, and
the summary returns the empty result on the empty frame. -/
theorem C5_boundaries_amended_witness :
    exceptIsOk (updateStringerTabTable [] Option.none Option.none [] []) = true
      ∧ exceptIsOk (saveGlobalStringerProperties 0 .null .null .null .null .null
          dfEmpty [] []) = true
      ∧ (dfEmpty.empty = true
          ∨ ¬(colWeight ∈ dfEmpty.cols ∧ colDuckFeet ∈ dfEmpty.cols))
      ∧ updateZoneStringerSummary fmtId dfEmpty = .ok ([], []) :=
  ⟨C5_boundaries_amended.1 [] Option.none Option.none [] [],
   C5_boundaries_amended.2.1 0 .null .null .null .null .null dfEmpty [] [],
   Or.inl rfl,
   C5_boundaries_amended.2.2 fmtId dfEmpty (Or.inl rfl)⟩

def dfCx5 : DataFrame :=
  { cols := [colWeight, colDuckFeet],
    rows := [[(colWeight, pvQ 1), (colDuckFeet, pvQ 0)]] }

/-- Counterexample to C5 as stated: on a non-empty frame that has the
`Weight (g)` and `Duck Feet` columns but no `Zone Name` column,
`update_zone_stringer_summary` (which has no `try`/`except`) raises `KeyError`
out of its boundary instead of returning an empty result. -/
theorem C5_boundaries_cx :
    updateZoneStringerSummary fmtId dfCx5 = .error "KeyError: Zone Name" := rfl

/- ### C6: the malformed error return of the merge callback -/

/-- C6: on a failure inside the merge (here `float("abc")` raising
`ValueError`), the source's `except` branch returns
`(html.P(f"Error: {e}"), (dash.no_update,) * 3)` — a two-element tuple whose
second element is itself a tuple of three no-update markers — although the
callback declares four outputs; the rows/panels/properties outputs are not
returned as three separate no-change signals. -/
theorem C6_error_return_malformed :
    saveGlobalStringerProperties 1 .null (.str "abc") (.str "No") .null .null
        dfEmpty [] []
      = .ok [.html "Error: could not convert string to float: 'abc'" "red",
          .tup [.noUpdate, .noUpdate, .noUpdate]]
    ∧ okLength (saveGlobalStringerProperties 1 .null (.str "abc") (.str "No")
        .null .null dfEmpty [] []) = some 2 :=
  ⟨rfl, rfl⟩

/- ### C8: the per-zone summary -/

instance : IsTotal PyVal (fun x y => zoneSortKey x ≤ zoneSortKey y) :=
  ⟨fun _ _ => le_total _ _⟩

instance : IsTrans PyVal (fun x y => zoneSortKey x ≤ zoneSortKey y) :=
  ⟨fun _ _ _ h1 h2 => le_trans h1 h2⟩

theorem summaryRecord_getD_zone (fmt : PiQ → PyVal) (df : DataFrame) (z : PyVal) :
    (summaryRecord fmt df z).getD colZone .null = z := rfl

theorem summaryRecord_getD_totW (fmt : PiQ → PyVal) (df : DataFrame) (z : PyVal) :
    (summaryRecord fmt df z).getD colTotW .null
      = fmt ((zoneColSum df colWeight z).qdiv 1000) := rfl

theorem summaryRecord_getD_totD (fmt : PiQ → PyVal) (df : DataFrame) (z : PyVal) :
    (summaryRecord fmt df z).getD colTotD .null
      = fmt (zoneColSum df colDuckFeet z) := rfl

theorem sortedZoneKeys_nodup (df : DataFrame) : (sortedZoneKeys df).Nodup :=
  (List.perm_insertionSort _ _).symm.nodup (List.nodup_dedup _)

theorem mem_sortedZoneKeys {df : DataFrame} {v : PyVal} :
    v ∈ sortedZoneKeys df ↔
      (v ∈ df.rows.map (fun r => r.getD colZone .null) ∧ v ≠ .null) := by
  unfold sortedZoneKeys zoneKeys
  rw [List.mem_insertionSort, List.mem_dedup, List.mem_filter]
  simp

/-- C8: on a non-empty derived row set with the required columns (and
string-valued zone names), the summary has one record per distinct zone name,
in strictly ascending zone-name order, whose weight value is exactly the sum
of `Weight (g)` over that zone's rows divided by 1000 and whose duck-feet
value is exactly the sum of `Duck Feet` over those rows, both passed through
the display formatter. -/
theorem C8_zone_summary :
    ∀ (fmt : PiQ → PyVal) (df : DataFrame),
      df.rows ≠ [] → colWeight ∈ df.cols → colDuckFeet ∈ df.cols →
      colZone ∈ df.cols →
      (∀ r ∈ df.rows, ∃ s : String, r.getD colZone .null = .str s) →
      ∀ out cols, updateZoneStringerSummary fmt df = .ok (out, cols) →
        cols = [colZone, colTotW, colTotD]
        ∧ List.Sorted (· < ·)
            (out.map (fun w => zoneSortKey (w.getD colZone .null)))
        ∧ (∀ v : PyVal, v ∈ out.map (fun w => w.getD colZone .null) ↔
            (v ∈ df.rows.map (fun r => r.getD colZone .null) ∧ v ≠ .null))
        ∧ (∀ w ∈ out,
            w.getD colTotW .null
              = fmt ((sumPiQ (((df.rows.filter
                  (fun r => r.getD colZone .null = w.getD colZone .null)).map
                    (fun r => cellNum (r.getD colWeight .null))))).qdiv 1000)
            ∧ w.getD colTotD .null
              = fmt (sumPiQ (((df.rows.filter
                  (fun r => r.getD colZone .null = w.getD colZone .null)).map
                    (fun r => cellNum (r.getD colDuckFeet .null)))))) := by
  intro fmt df hne hw hd hz hstr out cols hout
  unfold updateZoneStringerSummary at hout
  have hcond : ¬(df.empty = true ∨ ¬(colWeight ∈ df.cols ∧ colDuckFeet ∈ df.cols)) := by
    push_neg
    refine ⟨?_, hw, hd⟩
    simpa [DataFrame.empty, List.isEmpty_iff] using hne
  rw [if_neg hcond, if_pos hz] at hout
  rw [Except.ok.injEq, Prod.mk.injEq] at hout
  obtain ⟨hout1, hout2⟩ := hout
  subst hout1
  subst hout2
  have hmapzone : ((sortedZoneKeys df).map (summaryRecord fmt df)).map
      (fun w => w.getD colZone .null) = sortedZoneKeys df := by
    rw [List.map_map]
    have : ∀ z ∈ sortedZoneKeys df,
        ((fun w => w.getD colZone .null) ∘ summaryRecord fmt df) z = id z :=
      fun z _ => summaryRecord_getD_zone fmt df z
    rw [List.map_congr_left this, List.map_id]
  refine ⟨rfl, ?_, ?_, ?_⟩
  · -- strictly ascending zone-name order
    have hsorted : List.Sorted (fun x y => zoneSortKey x ≤ zoneSortKey y)
        (sortedZoneKeys df) := List.sorted_insertionSort _ _
    have hnodup : (sortedZoneKeys df).Nodup := sortedZoneKeys_nodup df
    have hkeysStr : ∀ v ∈ sortedZoneKeys df, ∃ s : String, v = .str s := by
      intro v hv
      rcases (mem_sortedZoneKeys.mp hv).1 with hv2
      rcases List.mem_map.mp hv2 with ⟨r, hr, hEq⟩
      rcases hstr r hr with ⟨s, hs⟩
      exact ⟨s, by rw [← hEq, hs]⟩
    have hnodupStr : ((sortedZoneKeys df).map zoneSortKey).Nodup := by
      refine List.Nodup.map_on ?_ hnodup
      intro x hx y hy hxy
      rcases hkeysStr x hx with ⟨sx, hsx⟩
      rcases hkeysStr y hy with ⟨sy, hsy⟩
      subst hsx
      subst hsy
      simpa [zoneSortKey] using hxy
    have hsortedStr : List.Sorted (· ≤ ·) ((sortedZoneKeys df).map zoneSortKey) :=
      List.Pairwise.map _ (fun _ _ h => h) hsorted
    have hcomb := List.Pairwise.and hsortedStr hnodupStr
    have hlt : List.Sorted (· < ·) ((sortedZoneKeys df).map zoneSortKey) :=
      hcomb.imp (fun h => lt_of_le_of_ne h.1 h.2)
    rw [List.map_map]
    have hpt : ∀ z ∈ sortedZoneKeys df,
        ((fun w => zoneSortKey (w.getD colZone .null)) ∘ summaryRecord fmt df) z
          = zoneSortKey z := by
      intro z _
      simp [Function.comp, summaryRecord_getD_zone]
    rw [List.map_congr_left hpt]
    exact hlt
  · intro v
    rw [hmapzone, mem_sortedZoneKeys]
  · intro w hw2
    rcases List.mem_map.mp hw2 with ⟨z, _, hEq⟩
    subst hEq
    rw [summaryRecord_getD_zone, summaryRecord_getD_totW, summaryRecord_getD_totD]
    exact ⟨rfl, rfl⟩

def dfC8 : DataFrame :=
  { cols := [colZone, colWeight, colDuckFeet],
    rows := [[(colZone, .str "B"), (colWeight, pvQ 100), (colDuckFeet, pvQ 1)],
             [(colZone, .str "A"), (colWeight, pvQ 50), (colDuckFeet, pvQ 2)],
             [(colZone, .str "B"), (colWeight, pvQ 200), (colDuckFeet, pvQ 3)]] }

/-- Witness for C8 at a two-zone frame: the summary is sorted ascending with
exact per-zone sums. -/
theorem C8_zone_summary_witness :
    (dfC8.rows ≠ [] ∧ colWeight ∈ dfC8.cols ∧ colDuckFeet ∈ dfC8.cols
      ∧ colZone ∈ dfC8.cols
      ∧ (∀ r ∈ dfC8.rows, ∃ s : String, r.getD colZone .null = .str s))
    ∧ ([colZone, colTotW, colTotD] = [colZone, colTotW, colTotD]
        ∧ List.Sorted (· < ·)
            (((sortedZoneKeys dfC8).map (summaryRecord fmtId dfC8)).map
              (fun w => zoneSortKey (w.getD colZone .null)))
        ∧ (∀ v : PyVal,
            v ∈ ((sortedZoneKeys dfC8).map (summaryRecord fmtId dfC8)).map
              (fun w => w.getD colZone .null) ↔
            (v ∈ dfC8.rows.map (fun r => r.getD colZone .null) ∧ v ≠ .null))
        ∧ (∀ w ∈ (sortedZoneKeys dfC8).map (summaryRecord fmtId dfC8),
            w.getD colTotW .null
              = fmtId ((sumPiQ (((dfC8.rows.filter
                  (fun r => r.getD colZone .null = w.getD colZone .null)).map
                    (fun r => cellNum (r.getD colWeight .null))))).qdiv 1000)
            ∧ w.getD colTotD .null
              = fmtId (sumPiQ (((dfC8.rows.filter
                  (fun r => r.getD colZone .null = w.getD colZone .null)).map
                    (fun r => cellNum (r.getD colDuckFeet .null))))))) := by
  have hstr : ∀ r ∈ dfC8.rows, ∃ s : String, r.getD colZone .null = .str s := by
    intro r hr
    simp only [dfC8, List.mem_cons, List.not_mem_nil, or_false] at hr
    rcases hr with rfl | rfl | rfl
    · exact ⟨"B", rfl⟩
    · exact ⟨"A", rfl⟩
    · exact ⟨"B", rfl⟩
  exact ⟨⟨by decide, by decide, by decide, by decide, hstr⟩,
    C8_zone_summary fmtId dfC8 (by decide) (by decide) (by decide) (by decide)
      hstr _ _ rfl⟩

/- ### The success path of `save_global_stringer_properties` (C1, C3) -/

theorem mem_setCol_self (df : DataFrame) (c : String) (f : Row → PyVal) :
    c ∈ (df.setCol c f).cols := by
  unfold DataFrame.setCol
  by_cases hc : c ∈ df.cols
  · simp [hc]
  · simp [hc]

theorem calc_ok_weight_cols {df : DataFrame} {p : Props} {l : CsLookup}
    {d : DataFrame} (h : calcStringerWeights df p l = .ok d) :
    colDuckFeet ∈ d.cols ∧ colWeight ∈ d.cols := by
  unfold calcStringerWeights at h
  cases h2 : deriveStage2 (deriveStage1 df p l) p with
  | error e =>
      rw [h2] at h
      exact absurd h (by simp)
  | ok d2 =>
      rw [h2] at h
      have h3 : deriveStage3 d2 p = .ok d := h
      have hduck2 : colDuckFeet ∈ d2.cols := by
        unfold deriveStage2 at h2
        by_cases hy : duckYes p = true
        · rw [if_pos hy] at h2
          by_cases hp : colPitch ∈ (deriveStage1 df p l).cols
          · rw [if_pos hp] at h2
            injection h2 with h2
            subst h2
            exact mem_setCol_self _ _ _
          · rw [if_neg hp] at h2
            cases h2
        · rw [if_neg hy] at h2
          injection h2 with h2
          subst h2
          exact mem_setCol_self _ _ _
      unfold deriveStage3 at h3
      by_cases hl3 : colFrameLen ∈ d2.cols
      · rw [if_pos hl3] at h3
        injection h3 with h3
        subst h3
        exact ⟨mem_setCol_cols _ _ hduck2, mem_setCol_self _ _ _⟩
      · rw [if_neg hl3] at h3
        cases h3

theorem updatePanels_isOk (panels : List Panel) (df : DataFrame) (p : Props)
    (hd : colDuckFeet ∈ df.cols) (hw : colWeight ∈ df.cols) :
    ∃ out, updatePanelsWithStringerWeights panels df p = .ok out := by
  unfold updatePanelsWithStringerWeights
  by_cases hg : colZone ∈ df.cols ∧ ¬df.rows.isEmpty
  · rw [if_pos hg, if_pos ⟨hd, hw⟩]
    exact ⟨_, rfl⟩
  · rw [if_neg hg]
    exact ⟨_, rfl⟩

theorem find_mergedProps_density (props : Props) (t d : ℚ) (duck : PyVal)
    (w sw : ℚ) :
    (mergedProps props t d duck w sw).find "global_stringer_density"
      = some (pvQ d) := by
  unfold mergedProps
  rw [Row.find_set_ne _ _ _ _ (by decide), Row.find_set_ne _ _ _ _ (by decide),
    Row.find_set_ne _ _ _ _ (by decide), Row.find_set_self]

theorem gDens_mergedProps (props : Props) (t d : ℚ) (duck : PyVal) (w sw : ℚ) :
    gDens (mergedProps props t d duck w sw) = d := by
  unfold gDens propNum propsGet Row.getD
  rw [find_mergedProps_density]
  rfl

theorem mergeRecompute_empty (df : DataFrame) (props1 : Props)
    (hre : df.rows = []) : mergeRecompute df props1 = .ok (df, props1) := by
  unfold mergeRecompute
  rw [if_neg (by simp [DataFrame.empty, hre])]

theorem mergeRecompute_nonempty {df : DataFrame} {props1 : Props}
    {df1 : DataFrame} (hre : df.rows ≠ [])
    (hcalc : calcStringerWeights df props1 [] = .ok df1)
    (hp : colPitch ∈ df1.cols) :
    mergeRecompute df props1
      = .ok (df1, (props1.set "total_stringers" (pvQ df1.rows.length)).set
          "total_stringer_pitch"
          (pvQ ((df1.rows.map (fun r => toNumFill0 (r.getD colPitch .null))).sum))) := by
  unfold mergeRecompute
  rw [if_pos (by simp [DataFrame.empty, hre]), hcalc]
  show (if colPitch ∈ df1.cols then _ else _) = _
  rw [if_pos hp]

theorem saveGlobalBody_parsed {thick dens strW stripW : PyVal} {t d w sw : ℚ}
    (duck : PyVal) (df : DataFrame) (panels : List Panel) (props : Props)
    (h1 : pyFloat (pyOr0 thick) = .ok t) (h2 : pyFloat (pyOr0 dens) = .ok d)
    (h3 : pyFloat (pyOr0 strW) = .ok w) (h4 : pyFloat (pyOr0 stripW) = .ok sw) :
    saveGlobalBody thick dens duck strW stripW df panels props
      = match mergeRecompute df (mergedProps props t d duck w sw) with
        | .error e => .error e
        | .ok (df1, props2) =>
            match updatePanelsWithStringerWeights (panels.map id) df1 props2 with
            | .error e => .error e
            | .ok panels1 => .ok (df1, panels1, props2) := by
  unfold saveGlobalBody
  rw [h1, h2, h3, h4]

theorem saveGlobal_success {n : ℕ} {thick dens duck strW stripW : PyVal}
    {df : DataFrame} {panels : List Panel} {props : Props} {t d w sw : ℚ}
    (hn : n ≠ 0)
    (h1 : pyFloat (pyOr0 thick) = .ok t) (h2 : pyFloat (pyOr0 dens) = .ok d)
    (h3 : pyFloat (pyOr0 strW) = .ok w) (h4 : pyFloat (pyOr0 stripW) = .ok sw)
    (hdf : df.rows = [] ∨ (colPitch ∈ df.cols ∧ colFrameLen ∈ df.cols)) :
    ∃ df1 ps1 pr1,
      saveGlobalStringerProperties n thick dens duck strW stripW df panels props
        = .ok [.html "Global properties saved!" "green", .json df1, .panels ps1,
            .propsJson pr1]
      ∧ (df.rows = [] → df1 = df)
      ∧ (df.rows ≠ [] →
          calcStringerWeights df (mergedProps props t d duck w sw) [] = .ok df1)
      ∧ pr1.find "global_stringer_density" = some (pvQ d) := by
  by_cases hre : df.rows = []
  · have hup : updatePanelsWithStringerWeights (panels.map id) df
        (mergedProps props t d duck w sw) = .ok (panels.map id) := by
      unfold updatePanelsWithStringerWeights
      rw [if_neg (fun hc => hc.2 (by simp [hre]))]
    refine ⟨df, panels.map id, mergedProps props t d duck w sw, ?_,
      fun _ => rfl, fun hc => absurd hre hc, find_mergedProps_density _ _ _ _ _ _⟩
    unfold saveGlobalStringerProperties
    rw [if_neg hn]
    simp only [saveGlobalBody_parsed duck df panels props h1 h2 h3 h4,
      mergeRecompute_empty df _ hre, hup]
  · obtain ⟨hp, hl⟩ := hdf.resolve_left hre
    obtain ⟨df1, hcalc⟩ :=
      @calcStringerWeights_isOk df (mergedProps props t d duck w sw) []
        hl (fun _ => hp)
    have hp1 : colPitch ∈ df1.cols := (calcStringerWeights_ok_elim hcalc).2 _ hp
    obtain ⟨hdk, hwt⟩ := calc_ok_weight_cols hcalc
    obtain ⟨ps1, hup⟩ := updatePanels_isOk (panels.map id) df1
      (((mergedProps props t d duck w sw).set "total_stringers"
        (pvQ df1.rows.length)).set "total_stringer_pitch"
        (pvQ ((df1.rows.map (fun r => toNumFill0 (r.getD colPitch .null))).sum)))
      hdk hwt
    refine ⟨df1, ps1,
      ((mergedProps props t d duck w sw).set "total_stringers"
        (pvQ df1.rows.length)).set "total_stringer_pitch"
        (pvQ ((df1.rows.map (fun r => toNumFill0 (r.getD colPitch .null))).sum)),
      ?_, fun hc => absurd hc hre, fun _ => hcalc, ?_⟩
    · unfold saveGlobalStringerProperties
      rw [if_neg hn]
      simp only [saveGlobalBody_parsed duck df panels props h1 h2 h3 h4,
        mergeRecompute_nonempty hre hcalc hp1, hup]
    · rw [Row.find_set_ne _ _ _ _ (by decide), Row.find_set_ne _ _ _ _ (by decide),
        find_mergedProps_density]

/-- C1 (amended): an absent (falsy) numeric field is defaulted to 0 by
`float(x or 0)` — with an absent density the merge succeeds, stores density 0,
and every recomputed weight is 0; but a non-empty unparsable string such as
"abc" makes `float` raise, and the merge returns its error status (caught, not
propagated) instead of a success status. -/
theorem C1_merge_numeric_defaults_amended :
    (∀ (n : ℕ) (thick dens duck strW stripW : PyVal) (df : DataFrame)
        (panels : List Panel) (props : Props) (t w sw : ℚ),
        n ≠ 0 →
        pyFloat (pyOr0 thick) = .ok t →
        pyFloat (pyOr0 strW) = .ok w →
        pyFloat (pyOr0 stripW) = .ok sw →
        pyTruthy dens = false →
        (df.rows = [] ∨ (colPitch ∈ df.cols ∧ colFrameLen ∈ df.cols)) →
        ∃ df1 ps1 pr1,
          saveGlobalStringerProperties n thick dens duck strW stripW df panels
              props
            = .ok [.html "Global properties saved!" "green", .json df1,
                .panels ps1, .propsJson pr1]
          ∧ pr1.find "global_stringer_density" = some (pvQ 0)
          ∧ ∀ r ∈ df1.rows, r.find colWeight = some (pvQ 0))
      ∧ (∀ (n : ℕ) (thick duck strW stripW : PyVal) (s : String) (df : DataFrame)
          (panels : List Panel) (props : Props),
          n ≠ 0 → s ≠ "" → parseFloat s = Option.none →
          ∃ e, saveGlobalStringerProperties n thick (.str s) duck strW stripW
              df panels props
            = .ok [.html ("Error: " ++ e) "red",
                .tup [.noUpdate, .noUpdate, .noUpdate]]) := by
  constructor
  · intro n thick dens duck strW stripW df panels props t w sw hn h1 h3 h4 hpd hdf
    have hor : pyOr0 dens = pvQ 0 := by
      unfold pyOr0
      rw [if_neg (by simp [hpd])]
    have h2 : pyFloat (pyOr0 dens) = .ok 0 := by
      rw [hor]
      rfl
    obtain ⟨df1, ps1, pr1, hout, hemp, hne', hdens⟩ :=
      saveGlobal_success hn h1 h2 h3 h4 hdf
    refine ⟨df1, ps1, pr1, hout, hdens, ?_⟩
    intro r hr
    by_cases hre : df.rows = []
    · rw [hemp hre, hre] at hr
      simp at hr
    · have hcalc := hne' hre
      rw [(calcStringerWeights_ok_elim hcalc).1] at hr
      rcases List.mem_map.mp hr with ⟨r0, _, hEq⟩
      subst hEq
      rw [rowDerive_find_weight, gDens_mergedProps, mul_zero]
  · intro n thick duck strW stripW s df panels props hn hsne hparse
    have hbody : ∃ e, saveGlobalBody thick (.str s) duck strW stripW df panels
        props = .error e := by
      unfold saveGlobalBody
      cases hth : pyFloat (pyOr0 thick) with
      | error e => exact ⟨e, rfl⟩
      | ok t =>
          have hor : pyOr0 (PyVal.str s) = PyVal.str s := by
            unfold pyOr0
            rw [if_pos (by simp [pyTruthy, hsne])]
          have hd2 : pyFloat (pyOr0 (PyVal.str s))
              = .error ("could not convert string to float: '" ++ s ++ "'") := by
            rw [hor]
            simp only [pyFloat]
            rw [hparse]
          refine ⟨"could not convert string to float: '" ++ s ++ "'", ?_⟩
          rw [hd2]
    obtain ⟨e, he⟩ := hbody
    refine ⟨e, ?_⟩
    unfold saveGlobalStringerProperties
    rw [if_neg hn]
    simp only [he]

/-- Witness for the amended C1: with every numeric input absent the merge
succeeds, stores density 0 and produces zero weights; with density "abc" it
returns the error status. -/
theorem C1_merge_numeric_defaults_amended_witness :
    (pyFloat (pyOr0 .null) = Except.ok (0 : ℚ)
      ∧ pyTruthy .null = false
      ∧ ∃ df1 ps1 pr1,
          saveGlobalStringerProperties 1 .null .null (.str "No") .null .null
              dfEmpty [] []
            = .ok [.html "Global properties saved!" "green", .json df1,
                .panels ps1, .propsJson pr1]
          ∧ pr1.find "global_stringer_density" = some (pvQ 0)
          ∧ ∀ r ∈ df1.rows, r.find colWeight = some (pvQ 0))
    ∧ (parseFloat "abc" = Option.none
      ∧ ∃ e, saveGlobalStringerProperties 1 .null (.str "abc") (.str "No")
            .null .null dfEmpty [] []
          = .ok [.html ("Error: " ++ e) "red",
              .tup [.noUpdate, .noUpdate, .noUpdate]]) :=
  ⟨⟨rfl, rfl,
    C1_merge_numeric_defaults_amended.1 1 .null .null (.str "No") .null .null
      dfEmpty [] [] 0 0 0 (by decide) rfl rfl rfl rfl (Or.inl rfl)⟩,
   ⟨rfl,
    C1_merge_numeric_defaults_amended.2 1 .null (.str "No") .null .null "abc"
      dfEmpty [] [] (by decide) (by decide) rfl⟩⟩

/-- Counterexample to C1 as stated: a property edit with density="x2" (a
non-empty string that does not parse as a number) makes the merge return an
error status, not the success status the claim requires. -/
theorem C1_merge_numeric_defaults_cx :
    saveGlobalStringerProperties 1 .null (.str "x2") (.str "No") .null .null
        dfEmpty [] []
      = .ok [.html "Error: could not convert string to float: 'x2'" "red",
          .tup [.noUpdate, .noUpdate, .noUpdate]] := rfl

/- ### C3 -/

def dfScenC3 : DataFrame :=
  { cols := [colCs, colPitch, colFrameLen],
    rows := [[(colCs, pvQ 50), (colPitch, pvQ 100), (colFrameLen, pvQ 1000)]] }

/-- C3 (amended): when the merge re-derives a non-empty stringer table it does
so against an empty cross-section lookup, so `cross_section_mm2` is
re-assigned to 0.0 on every row (not left at its prior value), and the weights
are recomputed from those zeroed cross-sections. -/
theorem C3_merge_zeroes_cross_sections :
    ∀ (n : ℕ) (thick dens duck strW stripW : PyVal) (df : DataFrame)
      (panels : List Panel) (props : Props) (t d w sw : ℚ),
      n ≠ 0 →
      pyFloat (pyOr0 thick) = .ok t → pyFloat (pyOr0 dens) = .ok d →
      pyFloat (pyOr0 strW) = .ok w → pyFloat (pyOr0 stripW) = .ok sw →
      df.rows ≠ [] → colPitch ∈ df.cols → colFrameLen ∈ df.cols →
      ∃ df1 ps1 pr1,
        saveGlobalStringerProperties n thick dens duck strW stripW df panels
            props
          = .ok [.html "Global properties saved!" "green", .json df1,
              .panels ps1, .propsJson pr1]
        ∧ df1.rows.length = df.rows.length
        ∧ ∀ r ∈ df1.rows, r.find colCs = some (pvQ 0) := by
  intro n thick dens duck strW stripW df panels props t d w sw hn h1 h2 h3 h4
    hre hp hl
  obtain ⟨df1, ps1, pr1, hout, _, hne', _⟩ :=
    saveGlobal_success hn h1 h2 h3 h4 (Or.inr ⟨hp, hl⟩)
  have hcalc := hne' hre
  refine ⟨df1, ps1, pr1, hout, ?_, ?_⟩
  · rw [(calcStringerWeights_ok_elim hcalc).1, List.length_map]
  · intro r hr
    rw [(calcStringerWeights_ok_elim hcalc).1] at hr
    rcases List.mem_map.mp hr with ⟨r0, _, hEq⟩
    subst hEq
    rw [rowDerive_find_cs]
    rfl

/-- Witness for the amended C3: merging over a one-row table whose prior
cross-section is 50 succeeds and leaves every row's cross-section cell 0. -/
theorem C3_merge_zeroes_cross_sections_witness :
    (dfScenC3.rows ≠ [] ∧ colPitch ∈ dfScenC3.cols ∧ colFrameLen ∈ dfScenC3.cols)
    ∧ ∃ df1 ps1 pr1,
        saveGlobalStringerProperties 1 .null .null (.str "No") .null .null
            dfScenC3 [] []
          = .ok [.html "Global properties saved!" "green", .json df1,
              .panels ps1, .propsJson pr1]
        ∧ df1.rows.length = dfScenC3.rows.length
        ∧ ∀ r ∈ df1.rows, r.find colCs = some (pvQ 0) :=
  ⟨⟨by decide, by decide, by decide⟩,
   C3_merge_zeroes_cross_sections 1 .null .null (.str "No") .null .null dfScenC3
     [] [] 0 0 0 0 (by decide) rfl rfl rfl rfl (by decide) (by decide) (by decide)⟩

/-- Counterexample to C3 as stated: the input row's cross-section cell is 50.0
before the merge and 0.0 in the merged output — not left unchanged. -/
theorem C3_merge_zeroes_cross_sections_cx :
    (mergedFrame (saveGlobalStringerProperties 1 .null .null (.str "No") .null
        .null dfScenC3 [] [])).map (fun d => d.rows.map (fun r => r.find colCs))
      = some [some (pvQ 0)]
    ∧ dfScenC3.rows.map (fun r => r.find colCs) = [some (pvQ 50)] :=
  ⟨rfl, rfl⟩

end Fubu
